import Mathlib

/-!
Verification development for the style-cascade resolution engine of
`renpy/style.py` and the JSON-backed dictionary `renpy/common/00db_ren.py`.

The Python source is shallowly embedded: module-level mutable state becomes an
explicit state record that every operation threads; Python exceptions become
`Except` results that carry the state as it stood when the exception was
raised; the unbounded `while` loop and the recursion of `build_style` take a
fuel argument, with `none` meaning the fuel budget was exhausted (so a result
of `none` for every fuel witnesses non-termination of the source loop).

Python dictionaries are embedded as association lists in insertion order.
CPython 2 iterates dictionaries in an unspecified order; every fact proved
below is independent of that order (keys are distinct and results are either
keyed lookups or sorted), so the insertion-order embedding is faithful.
-/

set_option maxRecDepth 4000
set_option maxHeartbeats 1000000

deriving instance DecidableEq for Except

namespace RenpyStyle

/-- Kind of normalizer function attached to a style property in
`style_properties` (`renpy.easy.color` / `renpy.easy.displayable`).  The
normalizers themselves are host-supplied pure functions; operations that
apply them are parametrized by an interpretation `normF : NK → Int → Int`. -/
inductive NK where
  | color
  | displayable
deriving DecidableEq

/-- `roles = [ 'selected_', '' ]` (style.py line 25). -/
def roles : List String := ["selected_", ""]

/-- `prefixes = [ 'hover_', 'idle_', 'insensitive_', 'activate_' ]`
(style.py line 28); renamed to avoid a reserved word. -/
def pfxList : List String := ["hover_", "idle_", "insensitive_", "activate_"]

/-- Python `s.startswith(pre)` on the embedded character data. -/
def strStarts (s pre : String) : Bool := pre.data.isPrefixOf s.data

/-- Python `s.endswith(suf)` on the embedded character data. -/
def strEnds (s suf : String) : Bool := suf.data.reverse.isPrefixOf s.data.reverse

/-- `register_prefix(prefix, prio, addprefixes)` (style.py lines 33-53).
Returns the entry that the call stores into `prefix_subs`: the priority and
the list of alternate prefixes `[a1 + a2 for a1 in alts1 for a2 in alts2]`.
The `for ... else` clauses become `List.find?` with a default. -/
def register_pfx (pfx : String) (prio : Nat) (addpfx : List String) :
    String × Nat × List String :=
  let alts1 :=
    match roles.find? (fun r => decide (r ≠ "") && strStarts pfx r) with
    | some r => [r]
    | none => roles
  let alts2 :=
    (match pfxList.find? (fun p => strEnds pfx p) with
     | some p => [p]
     | none => pfxList) ++ addpfx
  (pfx, prio, (alts1.map (fun a1 => alts2.map (fun a2 => a1 ++ a2))).flatten)

/-- `prefix_subs` after the ten `register_prefix` calls (style.py 56-65). -/
def pfx_subs : List (String × Nat × List String) :=
  [ register_pfx "selected_activate_" 6 [],
    register_pfx "selected_hover_" 5 ["activate_"],
    register_pfx "selected_idle_" 5 [],
    register_pfx "selected_insensitive_" 5 [],
    register_pfx "selected_" 4 [],
    register_pfx "activate_" 3 [],
    register_pfx "hover_" 2 ["activate_"],
    register_pfx "idle_" 2 [],
    register_pfx "insensitive_" 2 [],
    register_pfx "" 1 [] ]

/-- `style_properties` (style.py lines 69-134), in source listing order,
with the normalizer kind attached to each property.  CPython assigns the
session-specific property numbers by iterating this dictionary in an
unspecified order; the listing order is one admissible enumeration, and no
fact proved below depends on the particular numbering. -/
def style_properties : List (String × Option NK) :=
  [ ("antialias", none),
    ("background", some .displayable),
    ("bar_invert", none),
    ("bar_vertical", none),
    ("black_color", some .color),
    ("bold", none),
    ("bottom_bar", some .displayable),
    ("bottom_gutter", none),
    ("bottom_margin", none),
    ("bottom_padding", none),
    ("box_first_spacing", none),
    ("box_layout", none),
    ("box_spacing", none),
    ("clipping", none),
    ("color", some .color),
    ("drop_shadow", none),
    ("drop_shadow_color", some .color),
    ("enable_hover", none),
    ("first_indent", none),
    ("focus_mask", none),
    ("focus_rect", none),
    ("font", none),
    ("sound", none),
    ("italic", none),
    ("initial_time_offset", none),
    ("layout", none),
    ("left_bar", some .displayable),
    ("left_gutter", none),
    ("left_margin", none),
    ("left_padding", none),
    ("line_spacing", none),
    ("min_width", none),
    ("rest_indent", none),
    ("right_bar", some .displayable),
    ("right_gutter", none),
    ("right_margin", none),
    ("right_padding", none),
    ("size", none),
    ("slow_abortable", none),
    ("slow_cps", none),
    ("slow_cps_multiplier", none),
    ("subtitle_width", none),
    ("text_y_fudge", none),
    ("text_align", none),
    ("thumb", some .displayable),
    ("thumb_offset", none),
    ("thumb_shadow", some .displayable),
    ("top_bar", some .displayable),
    ("top_gutter", none),
    ("top_margin", none),
    ("top_padding", none),
    ("underline", none),
    ("xanchor", none),
    ("xfill", none),
    ("xmaximum", none),
    ("xminimum", none),
    ("xoffset", none),
    ("xpos", none),
    ("yanchor", none),
    ("yfill", none),
    ("ymaximum", none),
    ("yminimum", none),
    ("yoffset", none),
    ("ypos", none) ]

/-- `substitutes` (style.py lines 136-146). -/
def substitutes : List (String × List String) :=
  [ ("xmargin", ["left_margin", "right_margin"]),
    ("ymargin", ["top_margin", "bottom_margin"]),
    ("xalign", ["xpos", "xanchor"]),
    ("yalign", ["ypos", "yanchor"]),
    ("xpadding", ["left_padding", "right_padding"]),
    ("ypadding", ["top_padding", "bottom_padding"]),
    ("minwidth", ["min_width"]),
    ("textalign", ["text_align"]),
    ("slow_speed", ["slow_cps"]) ]

/-- Python dictionary lookup on an association list (first matching key). -/
def alGet {κ α : Type} [DecidableEq κ] : κ → List (κ × α) → Option α
  | _, [] => none
  | k, (k', v) :: t => if k' = k then some v else alGet k t

/-- Python dictionary assignment `m[k] = v`: replaces the first binding of
`k` in place, or appends a new binding if `k` is absent. -/
def alSet {κ α : Type} [DecidableEq κ] : List (κ × α) → κ → α → List (κ × α)
  | [], k, v => [(k, v)]
  | (k', v') :: t, k, v =>
      if k' = k then (k, v) :: t else (k', v') :: alSet t k v

/-- Python `del m[k]`: removes the binding of `k` (first occurrence). -/
def alErase {κ α : Type} [DecidableEq κ] : List (κ × α) → κ → List (κ × α)
  | [], _ => []
  | (k', v') :: t, k => if k' = k then t else (k', v') :: alErase t k

/-- `property_number` (style.py init, lines 168-169): property name to
session-specific index, one admissible enumeration order. -/
def property_number : List (String × Nat) :=
  style_properties.enum.map (fun e => (e.2.1, e.1))

/-- `prefix_offset` (style.py init, lines 172-176): each role+state prefix
to its flat-cache offset, in registration order, stepping by the property
count. -/
def pfx_offset : List (String × Nat) :=
  ((roles.map (fun r => pfxList.map (fun p => r ++ p))).flatten).enum.map
    (fun e => (e.2, e.1 * style_properties.length))

/-- `property_numbers` after init: total width of a flat cache
(`len(roles) * len(prefixes) * len(style_properties)`). -/
def property_numbers : Nat :=
  roles.length * pfxList.length * style_properties.length

/-- One expansion triple `(priority, absolute slot index, normalizer)`. -/
abbrev Expan := Nat × Nat × Option NK

/-- The part of `expansions` built from `prefix_subs` and the property
table (style.py init, lines 180-184).  The source indexes
`prefix_offset[a]` and `style_properties[prop]` directly; both lookups
always succeed for generated keys, so the `getD` defaults are never used. -/
def expansionsBase : List (String × List Expan) :=
  (pfx_subs.map (fun pe =>
    property_number.map (fun pn =>
      (pe.1 ++ pn.1,
       pe.2.2.map (fun a =>
         (pe.2.1, pn.2 + (alGet a pfx_offset).getD 0,
          (alGet pn.1 style_properties).getD none)))))).flatten

/-- `expansions` after init: the base table plus the substitute (alias)
entries `expansions[p + k] = [a for b in substitutes[k] for a in
expansions[p + b]]` for `p in prefixes + ['']` (style.py lines 187-189). -/
def expansions : List (String × List Expan) :=
  expansionsBase ++
    (substitutes.map (fun se =>
      (pfxList ++ [""]).map (fun p =>
        (p ++ se.1,
         (se.2.map (fun b => (alGet (p ++ b) expansionsBase).getD [])).flatten)))).flatten

/-- Lexicographic strict order on the `(priority, slot, value)` triples
produced by `expand_properties`, matching Python tuple comparison with
integer values. -/
def tripLt (a b : Nat × Nat × Int) : Bool :=
  decide (a.1 < b.1 ∨ (a.1 = b.1 ∧
    (a.2.1 < b.2.1 ∨ (a.2.1 = b.2.1 ∧ a.2.2 < b.2.2))))

/-- Stable insertion of one triple: a new element goes after every element
it does not strictly precede, so equal keys keep their original order. -/
def insertTrip (x : Nat × Nat × Int) : List (Nat × Nat × Int) → List (Nat × Nat × Int)
  | [] => [x]
  | y :: ys => if tripLt x y then x :: y :: ys else y :: insertTrip x ys

/-- `rv.sort()` (style.py line 290): Python's stable sort.  Any stable sort
for the same total preorder computes the same list, so this stable
insertion sort is extensionally the source's timsort. -/
def sortTriples (l : List (Nat × Nat × Int)) : List (Nat × Nat × Int) :=
  l.foldl (fun acc x => insertTrip x acc) []

/-- Application of the stored normalizer of one expansion entry.  The
source memoizes `func(val)` per value identity within one property; the
normalizers are pure host functions, so the memo is semantically the
identity and is not modeled. -/
def applyNorm (normF : NK → Int → Int) : Option NK → Int → Int
  | none, v => v
  | some k, v => normF k v

/-- The accumulation loop of `expand_properties` (style.py lines 262-286):
for each prefixed property in the batch, look up its expansion entries and
append one `(priority, slot, normalized value)` triple per entry; an
unknown prefixed property raises. -/
def expandLoop (normF : NK → Int → Int) :
    List (String × Int) → List (Nat × Nat × Int) →
    Except String (List (Nat × Nat × Int))
  | [], acc => .ok acc
  | (prop, val) :: rest, acc =>
    match alGet prop expansions with
    | none => .error ("Style property " ++ prop ++ " is unknown.")
    | some es =>
        expandLoop normF rest
          (acc ++ es.map (fun e => (e.1, e.2.1, applyNorm normF e.2.2 val)))

/-- `expand_properties(properties)` (style.py lines 257-291): expand a
batch and sort the triples in priority order, so that higher-priority
writes come last. -/
def expandProperties (normF : NK → Int → Int) (batch : List (String × Int)) :
    Except String (List (Nat × Nat × Int)) :=
  (expandLoop normF batch []).map sortTriples

/-- The write loop of `build_style` (style.py lines 350-353): each sorted
triple writes its value into the flat cache at its slot.  Every generated
slot index is below `property_numbers`, the length of every cache, so the
in-range `List.set` mirrors the source's `cache[propn] = val`. -/
def writeTriples (c : List (Option Int)) (l : List (Nat × Nat × Int)) :
    List (Option Int) :=
  l.foldl (fun c t => c.set t.2.1 (some t.2.2)) c

/-- Expansion plus cache writes for one raw property batch. -/
def applyBatch (normF : NK → Int → Int) (c : List (Option Int))
    (batch : List (String × Int)) : Except String (List (Option Int)) :=
  (expandProperties normF batch).map (writeTriples c)

/-- One style object (style.py `Style`, lines 431-536).  `pfx` is the
`prefix` slot (the active read prefix) and `offset` its cache offset. -/
structure Style where
  name : Option String
  parent : Option String
  properties : List (List (String × Int))
  heavy : Bool
  cache : Option (List (Option Int))
  pfx : String
  offset : Nat
deriving DecidableEq

/-- The module-level mutable state of style.py: `style_map` (line 195),
`styles_built` (line 201) and `styles_pending` (line 204; `None` after a
completed build).  The pending list is kept as the names of the registered
styles it holds: pending entries are object references that `create`
registers under a name immediately after construction, and building an
unreachable duplicate object has no observable effect on the map. -/
structure SState where
  style_map : List (String × Style)
  styles_built : Bool
  styles_pending : Option (List String)
deriving DecidableEq

/-- `prefix_offset['insensitive_']`, the offset installed by
`Style.__init__` (style.py lines 467-468). -/
def insensOffset : Nat := (alGet "insensitive_" pfx_offset).getD 0

/-- Truthiness of the `cache` slot in `if not parent.cache` (style.py
line 339): Python treats both `None` and an empty list as false. -/
def cacheFalsy : Option (List (Option Int)) → Bool
  | none => true
  | some c => c.isEmpty

/-- The parent-chain walk of `build_style` (style.py lines 307-334):
collect the target and every light ancestor (root-most first) until the
chain ends or a heavy ancestor is found, with a fuel bound because the
source `while` loop has none.  A result of `none` means the fuel ran out,
i.e. the source loop has not terminated within that many iterations. -/
def walkParents (m : List (String × Style)) :
    Nat → Style → List Style → Option (Except String (List Style × Option String))
  | 0, _, _ => none
  | fuel + 1, s, acc =>
    let acc := s :: acc
    match s.parent with
    | none => some (.ok (acc, none))
    | some pn =>
      match alGet pn m with
      | none => some (.error ("Style " ++ pn ++ " is not known."))
      | some p => if p.heavy then some (.ok (acc, some pn)) else walkParents m fuel p acc

/-- The replay loop of `build_style` (style.py lines 350-353): apply every
raw batch of every collected style, root-most style first, to the working
cache. -/
def replayLights (normF : NK → Int → Int) (lights : List Style)
    (c : List (Option Int)) : Except String (List (Option Int)) :=
  lights.foldlM (fun c s => s.properties.foldlM (fun c b => applyBatch normF c b) c) c

/-- `build_style(style)` (style.py lines 297-355) on a style value, before
the result is stored back under the style's name.  Returns the updated
state (the recursive parent build may have materialized ancestor caches)
and the style with its cache set.  Exceptions carry the state at raise
time; `none` means the fuel budget was exhausted. -/
def buildStyleV (normF : NK → Int → Int) :
    Nat → SState → Style → Option (Except (String × SState) (SState × Style))
  | 0, _, _ => none
  | fuel + 1, st, style =>
    if style.heavy = false then some (.ok (st, style))
    else
      match walkParents st.style_map fuel style [] with
      | none => none
      | some (.error e) => some (.error (e, st))
      | some (.ok (lights, pnOpt)) =>
        match pnOpt with
        | none =>
          match replayLights normF lights (List.replicate property_numbers none) with
          | .error e => some (.error (e, st))
          | .ok c => some (.ok (st, { style with cache := some c }))
        | some pn =>
          match alGet pn st.style_map with
          | none => some (.error ("Style " ++ pn ++ " is not known.", st))
          | some p =>
            if cacheFalsy p.cache then
              match buildStyleV normF fuel st p with
              | none => none
              | some (.error e) => some (.error e)
              | some (.ok (st1, p1)) =>
                let st2 : SState := { st1 with style_map := alSet st1.style_map pn p1 }
                match p1.cache with
                | none => some (.error ("TypeError: NoneType is not subscriptable", st2))
                | some seed =>
                  match replayLights normF lights seed with
                  | .error e => some (.error (e, st2))
                  | .ok c => some (.ok (st2, { style with cache := some c }))
            else
              match p.cache with
              | none => some (.error ("TypeError: NoneType is not subscriptable", st))
              | some seed =>
                match replayLights normF lights seed with
                | .error e => some (.error (e, st))
                | .ok c => some (.ok (st, { style with cache := some c }))

/-- `build_style` on a registered style name: look the object up, build
it, and store the materialized cache back into the map (the source
mutates the shared object that the map points at). -/
def buildStyleN (normF : NK → Int → Int) (fuel : Nat) (st : SState)
    (name : String) : Option (Except (String × SState) SState) :=
  match alGet name st.style_map with
  | none => some (.error ("KeyError: " ++ name, st))
  | some s =>
    match buildStyleV normF fuel st s with
    | none => none
    | some (.error e) => some (.error e)
    | some (.ok (st1, s1)) =>
        some (.ok { st1 with style_map := alSet st1.style_map name s1 })

/-- The `for s in styles_pending: build_style(s)` loop of `build_styles`
(style.py lines 365-366). -/
def buildList (normF : NK → Int → Int) (fuel : Nat) :
    List String → SState → Option (Except (String × SState) SState)
  | [], st => some (.ok st)
  | n :: ns, st =>
    match buildStyleN normF fuel st n with
    | none => none
    | some (.error e) => some (.error e)
    | some (.ok st1) => buildList normF fuel ns st1

/-- The `TypeError` CPython raises when `for` iterates `None`. -/
def pendingNoneMsg : String := "TypeError: NoneType object is not iterable"

/-- `build_styles()` (style.py lines 360-369): iterate the pending list
(raising `TypeError` when a completed build has already replaced it with
`None`), then clear the pending list and set `styles_built`. -/
def buildStyles (normF : NK → Int → Int) (fuel : Nat) (st : SState) :
    Option (Except (String × SState) SState) :=
  match st.styles_pending with
  | none => some (.error (pendingNoneMsg, st))
  | some names =>
    match buildList normF fuel names st with
    | none => none
    | some (.error e) => some (.error e)
    | some (.ok st1) =>
        some (.ok { st1 with styles_pending := none, styles_built := true })

/-- The `AttributeError` CPython raises for `i.__dict__` on an instance of
a class that declares `__slots__` (style.py lines 434-443) and no
`__dict__` slot. -/
def attrDictMsg : String := "AttributeError: Style object has no attribute __dict__"

/-- `rebuild()` (style.py lines 371-382).  The source declares
`global style_pending` (a typo: the real global is `styles_pending`), so
its list of heavy styles is a local variable and the global pending list
is never changed.  It then runs `i.__dict__["cache"] = { }` over that
local list; `Style` declares `__slots__` and no `__dict__`, so the first
iteration raises `AttributeError`.  Only `styles_built = False` (whose
`global` declaration is spelled correctly) has taken effect by then.
With no heavy style the loop body never runs and `build_styles()` is
reached. -/
def rebuild (normF : NK → Int → Int) (fuel : Nat) (st : SState) :
    Option (Except (String × SState) SState) :=
  let heavies := st.style_map.filter (fun e => e.2.heavy)
  let st1 : SState := { st with styles_built := false }
  match heavies with
  | [] => buildStyles normF fuel st1
  | _ :: _ => some (.error (attrDictMsg, st1))

/-- `backup()` (style.py lines 384-390): name to a copy of the raw
properties list of every registered style. -/
def backup (st : SState) : List (String × List (List (String × Int))) :=
  st.style_map.map (fun e => (e.1, e.2.properties))

/-- The `for k, v in o.iteritems()` loop of `restore` (style.py lines
399-401): replace each named style's raw properties and append it to the
pending list; a snapshot key with no registered style raises `KeyError`
before that entry is appended. -/
def restoreLoop :
    List (String × List (List (String × Int))) → SState →
    Except (String × SState) SState
  | [], st => .ok st
  | (k, v) :: rest, st =>
    match alGet k st.style_map with
    | none => .error ("KeyError: " ++ k, st)
    | some s =>
        restoreLoop rest
          { st with style_map := alSet st.style_map k { s with properties := v },
                    styles_pending := st.styles_pending.map (fun l => l ++ [k]) }

/-- `restore(o)` (style.py lines 392-401): reset the pending list, clear
`styles_built`, then run the replacement loop.  Note the source does not
invoke `build_styles` afterwards. -/
def restore (st : SState) (o : List (String × List (List (String × Int)))) :
    Except (String × SState) SState :=
  restoreLoop o { st with styles_pending := some [], styles_built := false }

/-- The style value `Style(parent, { }, heavy=True)` built by
`StyleManager.create` before registration (style.py lines 246, 465-492):
the passed `{ }` is falsy, so the properties list starts empty. -/
def freshHeavy (name : String) (par : Option String) : Style :=
  { name := some name, parent := par, properties := [], heavy := true,
    cache := none, pfx := "insensitive_", offset := insensOffset }

/-- `StyleManager.create(name, parent)` (style.py lines 233-248): build a
fresh heavy style (whose constructor either builds it at once, when
`styles_built`, or appends it to the pending list) and store it into
`style_map[name]` unconditionally — there is no duplicate-name check. -/
def create (normF : NK → Int → Int) (fuel : Nat) (st : SState)
    (name : String) (par : Option String) :
    Option (Except (String × SState) SState) :=
  let s := freshHeavy name par
  if st.styles_built then
    match buildStyleV normF fuel st s with
    | none => none
    | some (.error e) => some (.error e)
    | some (.ok (st1, s1)) =>
        some (.ok { st1 with style_map := alSet st1.style_map name s1 })
  else
    some (.ok { st with style_map := alSet st.style_map name s,
                        styles_pending := st.styles_pending.map (fun l => l ++ [name]) })

/-- `Style.setattr(name, value)` (style.py lines 498-503) on a registered
style: append a one-entry batch and, when the global build has completed,
rebuild this style at once. -/
def styleSetattr (normF : NK → Int → Int) (fuel : Nat) (st : SState)
    (name prop : String) (v : Int) : Option (Except (String × SState) SState) :=
  match alGet name st.style_map with
  | none => some (.error ("KeyError: " ++ name, st))
  | some s =>
    let s1 := { s with properties := s.properties ++ [[(prop, v)]] }
    let st1 : SState := { st with style_map := alSet st.style_map name s1 }
    if st.styles_built then buildStyleN normF fuel st1 name
    else some (.ok st1)

/-- `Style.set_prefix(prefix)` (style.py lines 494-496): install the
active read prefix and its offset; a prefix with no registered offset
(such as the bare `""`) raises `KeyError`. -/
def set_pfx (s : Style) (p : String) : Except String Style :=
  match alGet p pfx_offset with
  | none => .error ("KeyError: " ++ p)
  | some o => .ok { s with pfx := p, offset := o }

/-- The metaclass property getter (style.py lines 414-416):
`self.cache[self.offset + number]`, raising when the cache is `None` or
the index is out of range. -/
def getProp (s : Style) (prop : String) : Except String (Option Int) :=
  match alGet prop property_number with
  | none => .error ("AttributeError: " ++ prop)
  | some n =>
    match s.cache with
    | none => .error "TypeError: NoneType is not subscriptable"
    | some c =>
      match c.get? (s.offset + n) with
      | none => .error "IndexError: list index out of range"
      | some v => .ok v

/-- Projection of a successful build result. -/
def okState : Option (Except (String × SState) SState) → Option SState
  | some (.ok st) => some st
  | _ => none

/-- Whether a (terminating) operation raised. -/
def isErrorB : Option (Except (String × SState) SState) → Bool
  | some (.error _) => true
  | _ => false

/-- The identity interpretation of the normalizer hooks, used for
concrete witnesses. -/
def normId : NK → Int → Int := fun _ v => v

/-- Read one cache slot of a registered style. -/
def readSlot (st : SState) (name : String) (off n : Nat) : Option (Option Int) :=
  (alGet name st.style_map).bind (fun s => s.cache.bind (fun c => c.get? (off + n)))

/-- Read a property of a style through `set_prefix` plus the metaclass
getter, as the host does. -/
def readWithPfx (os : Option Style) (p prop : String) : Option (Option Int) :=
  os.bind (fun s => (set_pfx s p).toOption.bind
    (fun s1 => (getProp s1 prop).toOption))

/-- The keys of an association list, in order. -/
def alKeys {κ α : Type} (m : List (κ × α)) : List κ := m.map (fun e => e.1)

/-- The normalizer kind registered for a property name. -/
def nkOf (p : String) : Option NK := (alGet p style_properties).getD none

/-- The style map `restore` produces, as a map over the old one: each
style named in the snapshot gets the snapshot's properties list, every
other field (in particular the cache) and every unnamed style are left
untouched. -/
def overlayProps (m : List (String × Style))
    (o : List (String × List (List (String × Int)))) : List (String × Style) :=
  m.map (fun e =>
    match alGet e.1 o with
    | some v => (e.1, { e.2 with properties := v })
    | none => e)

/-! Concrete configurations used by counterexamples and witnesses. -/

/-- A heavy style whose parent chain enters the light cycle `b → c → b`. -/
def cycA : Style := { freshHeavy "a" (some "b") with properties := [] }

/-- A light style on the cycle. -/
def cycB : Style := { cycA with name := some "b", parent := some "c", heavy := false }

/-- The other light style on the cycle. -/
def cycC : Style := { cycA with name := some "c", parent := some "b", heavy := false }

/-- A registry whose only heavy style sits on top of a light parent cycle. -/
def cycState : SState :=
  { style_map := [("a", cycA), ("b", cycB), ("c", cycC)],
    styles_built := false, styles_pending := some ["a"] }

/-- The `"default"` root style of the spec's button scenario, with
`xpos = 0` assigned at the base (unprefixed) prefix. -/
def defSty : Style := { freshHeavy "default" none with properties := [[("xpos", 0)]] }

/-- The `"button"` style of the spec's scenario, with `hover_xpos = 10`. -/
def btnSty : Style :=
  { freshHeavy "button" (some "default") with properties := [[("hover_xpos", 10)]] }

/-- The registry of the button scenario, before the build. -/
def c6State : SState :=
  { style_map := [("default", defSty), ("button", btnSty)],
    styles_built := false, styles_pending := some ["default", "button"] }

/-- The button scenario after `build_styles()`. -/
def c6Post : Option SState := okState (buildStyles normId 10 c6State)

/-- The built `"button"` style of the scenario. -/
def c6Button : Option Style := c6Post.bind (fun st => alGet "button" st.style_map)

/-- A one-style registry: heavy `"a"` with `xpos = 3`, pending. -/
def c4St : SState :=
  { style_map := [("a", { freshHeavy "a" none with properties := [[("xpos", 3)]] })],
    styles_built := false, styles_pending := some ["a"] }

/-- A registry that already registers a style named `"a"` (with one raw
property batch), for the duplicate-`create` counterexample. -/
def c5St : SState :=
  { style_map := [("default", freshHeavy "default" none),
                  ("a", { freshHeavy "a" (some "default") with
                            properties := [[("xpos", 5)]] })],
    styles_built := false, styles_pending := some ["default", "a"] }

/-- Snapshot round-trip scenario, step 0: heavy `"a"` with `xpos = 5`. -/
def c3St0 : SState :=
  { style_map := [("a", { freshHeavy "a" none with properties := [[("xpos", 5)]] })],
    styles_built := false, styles_pending := some ["a"] }

/-- Step 1: after the global build (`a.xpos` resolves to 5). -/
def c3Built : Option SState := okState (buildStyles normId 10 c3St0)

/-- Step 2: a `backup()` snapshot taken after the build. -/
def c3Snap : Option (List (String × List (List (String × Int)))) := c3Built.map backup

/-- Step 3: mutate `a.xpos` to 7 (post-build, so the style rebuilds). -/
def c3Mut : Option SState :=
  c3Built.bind (fun st => okState (styleSetattr normId 10 st "a" "xpos" 7))

/-- Step 4: `restore` the earlier snapshot over the mutated registry. -/
def c3Restored : Option SState :=
  c3Mut.bind (fun st => c3Snap.bind (fun o => (restore st o).toOption))

end RenpyStyle

namespace RenpyJsonDB

/-!
Embedding of the `JSONDB` class of `renpy/common/00db_ren.py`.  Values are
embedded to the depth the database stores them: an atom, a list of atoms,
or a string-keyed mapping of atoms; the `jblob` constructor stands for
any Python object `json.dumps` rejects, at any depth, so `jsonable`
embeds "this value serializes".  File I/O (`save`, the constructor load)
is out of scope; the in-memory operations are modeled, threading the
instance state and, as for the style engine, carrying the state at raise
time inside errors.
-/

/-- An atomic stored value; `jblob` marks a non-JSON-serializable
object. -/
inductive JAtom where
  | jnull
  | jbool (b : Bool)
  | jnum (n : Int)
  | jstr (s : String)
  | jblob (tag : Nat)
deriving DecidableEq

/-- A stored value: atom, list, or string-keyed mapping. -/
inductive JVal where
  | atom (a : JAtom)
  | jlist (l : List JAtom)
  | jobj (l : List (String × JAtom))
deriving DecidableEq

/-- Whether `json.dumps` accepts an atom. -/
def JAtom.jsonable : JAtom → Bool
  | .jblob _ => false
  | _ => true

/-- Whether `json.dumps` accepts a value. -/
def JVal.jsonable : JVal → Bool
  | .atom a => a.jsonable
  | .jlist l => l.all JAtom.jsonable
  | .jobj l => l.all (fun e => e.2.jsonable)

/-- One per-key dictionary stored in the database. -/
abbrev Dict := List (String × JVal)

/-- The in-memory state of one `JSONDB` instance: `self.data` (keyed by
the computed key, which Python allows to be `None`), `self.default`,
`self.dirty`, and whether `self.key` holds a key function (`None` means
the fixed key `'data'` is used). -/
structure DB where
  data : List (Option String × Dict)
  dflt : Dict
  dirty : Bool
  hasKeyFn : Bool
deriving DecidableEq

/-- The ambient host state a call sees: `config.developer` and what the
key function would currently return. -/
structure Env where
  developer : Bool
  keyResult : Option String
deriving DecidableEq

/-- The key `get_dict` computes (00db_ren.py lines 168-171). -/
def currentKey (env : Env) (db : DB) : Option String :=
  if db.hasKeyFn then env.keyResult else some "data"

/-- Result of a JSONDB operation: either a raised exception message with
the instance state at raise time, or a value with the updated state. -/
abbrev JRes (α : Type) := Except (String × DB) (α × DB)

/-- The `RuntimeError` message of `JSONDB.check` (00db_ren.py line 158). -/
def devErrMsg : String := "A JSONDB can only be modified when config.developer is True."

/-- The `TypeError` message of `JSONDB.check` (00db_ren.py line 165). -/
def serErrMsg : String := "The data is not JSON serializable."

/-- `JSONDB.check(value)` (00db_ren.py lines 156-165): `none` when the
check passes, otherwise the exception message. -/
def check (env : Env) (v : JVal) : Option String :=
  if ¬ env.developer then some devErrMsg
  else if ¬ v.jsonable then some serErrMsg
  else none

/-- `JSONDB.get_dict()` (00db_ren.py lines 167-180): compute the current
key, reject a `None` key when `config.developer` is set, insert a copy of
the default dictionary when the key is absent, and return the stored
dictionary for the key together with the (possibly mutated) state. -/
def get_dict (env : Env) (db : DB) : JRes Dict :=
  let key := currentKey env db
  if key.isNone && env.developer then
    .error ("Accessing JSONDB with a None key.", db)
  else
    match RenpyStyle.alGet key db.data with
    | some d => .ok (d, db)
    | none => .ok (db.dflt, { db with data := db.data ++ [(key, db.dflt)] })

/-- Store a new dictionary under the current key (the source mutates the
dictionary object `get_dict` returned, which is the one held in
`self.data`). -/
def setCur (env : Env) (db : DB) (d : Dict) : DB :=
  { db with data := RenpyStyle.alSet db.data (currentKey env db) d }

/-- `JSONDB.__getitem__` (00db_ren.py lines 188-189). -/
def getitem (env : Env) (db : DB) (k : String) : JRes JVal :=
  match get_dict env db with
  | .error e => .error e
  | .ok (d, db1) =>
    match RenpyStyle.alGet k d with
    | none => .error ("KeyError: " ++ k, db1)
    | some v => .ok (v, db1)

/-- `JSONDB.__setitem__` (00db_ren.py lines 191-194): check first, then
write and set the dirty flag. -/
def setitem (env : Env) (db : DB) (k : String) (v : JVal) : JRes Unit :=
  match check env v with
  | some e => .error (e, db)
  | none =>
    match get_dict env db with
    | .error e => .error e
    | .ok (d, db1) =>
        .ok ((), { setCur env db1 (RenpyStyle.alSet d k v) with dirty := true })

/-- `JSONDB.__delitem__` (00db_ren.py lines 196-198): sets the dirty flag
and deletes — with no call to `check`, so no developer-mode gate. -/
def delitem (env : Env) (db : DB) (k : String) : JRes Unit :=
  let db := { db with dirty := true }
  match get_dict env db with
  | .error e => .error e
  | .ok (d, db1) =>
    match RenpyStyle.alGet k d with
    | none => .error ("KeyError: " ++ k, db1)
    | some _ => .ok ((), setCur env db1 (RenpyStyle.alErase d k))

/-- `JSONDB.__len__` (00db_ren.py lines 185-186). -/
def dbLen (env : Env) (db : DB) : JRes Nat :=
  match get_dict env db with
  | .error e => .error e
  | .ok (d, db1) => .ok (d.length, db1)

/-- `JSONDB.__iter__` (00db_ren.py lines 182-183), as the key list the
iterator ranges over. -/
def dbKeys (env : Env) (db : DB) : JRes (List String) :=
  match get_dict env db with
  | .error e => .error e
  | .ok (d, db1) => .ok (d.map (fun e => e.1), db1)

/-- `JSONDB.__contains__` (00db_ren.py lines 200-201). -/
def dbContains (env : Env) (db : DB) (k : String) : JRes Bool :=
  match get_dict env db with
  | .error e => .error e
  | .ok (d, db1) => .ok ((RenpyStyle.alGet k d).isSome, db1)

/-- `JSONDB.get(key, default)` (00db_ren.py lines 213-214). -/
def dbGet (env : Env) (db : DB) (k : String) (dv : JVal) : JRes JVal :=
  match get_dict env db with
  | .error e => .error e
  | .ok (d, db1) => .ok ((RenpyStyle.alGet k d).getD dv, db1)

/-- `JSONDB.update(d)` (00db_ren.py lines 242-249) with the merged
argument dictionary `d` already formed: the dirty flag is set first, then
`check(d)` runs (`json.dumps` of the mapping succeeds iff every value
serializes), and only then is the stored dictionary updated. -/
def dbUpdate (env : Env) (db : DB) (kvs : List (String × JVal)) : JRes Unit :=
  let db := { db with dirty := true }
  if ¬ env.developer then .error (devErrMsg, db)
  else if ¬ kvs.all (fun e => e.2.jsonable) then .error (serErrMsg, db)
  else
    match get_dict env db with
    | .error e => .error e
    | .ok (d, db1) =>
        .ok ((), setCur env db1 (kvs.foldl (fun d e => RenpyStyle.alSet d e.1 e.2) d))

/-- The instance state after an operation, whether or not it raised. -/
def jState {α : Type} : JRes α → DB
  | .ok (_, db) => db
  | .error (_, db) => db

/-- A host environment with developer mode off. -/
def c8Env : Env := { developer := false, keyResult := none }

/-- A database holding `{"a": 1}` under the fixed `'data'` key, clean. -/
def c8Db : DB :=
  { data := [(some "data", [("a", .atom (.jnum 1))])],
    dflt := [], dirty := false, hasKeyFn := false }

/-- A developer-mode environment whose key function returns `"k"`. -/
def c10Env : Env := { developer := true, keyResult := some "k" }

/-- An empty keyed database with default `{"enabled": False}`. -/
def c10Db : DB :=
  { data := [], dflt := [("enabled", .atom (.jbool false))],
    dirty := false, hasKeyFn := true }

end RenpyJsonDB

open RenpyStyle RenpyJsonDB

/-- C6, counterexample: the claim's second half cannot hold — the prefix
registry assigns no storage offset to the bare prefix `""` (the cross
product `roles × prefixes` never produces it), so selecting `""` as the
active read prefix raises `KeyError` instead of reading `0`. -/
theorem c6_no_base_slot_cex :
    alGet "" pfx_offset = none ∧
    c6Button.map (fun s => (set_pfx s "").toOption.isNone) = some true := by
  decide

/-- C6, amended: in the built button/default scenario, reading `xpos` on
`button` with active prefix `hover_` yields 10, and the hover override
does not leak into the slots of other states — reading with the `idle_`
prefix yields the inherited 0; the base assignment has no `""` slot of
its own (it fans out to every role+state slot), and `set_prefix("")`
raises. -/
theorem c6_hover_scenario :
    readWithPfx c6Button "hover_" "xpos" = some (some 10) ∧
    readWithPfx c6Button "idle_" "xpos" = some (some 0) ∧
    alGet "" pfx_offset = none := by
  decide

/-- C4, counterexample: after a first successful `build_styles()`, an
immediate second call does not succeed — it raises `TypeError` because
the first call replaced the pending list with `None`. -/
theorem c4_second_build_cex :
    (okState (buildStyles normId 5 c4St)).isSome = true ∧
    (okState (buildStyles normId 5 c4St)).map
      (fun st => isErrorB (buildStyles normId 5 st)) = some true := by
  decide

/-- C4, amended: running `build_styles()` twice in a row with no
intervening mutation is not idempotent-by-success: whenever the first
call returns normally it has set `styles_pending = None`, so the second
call raises `TypeError` at its `for` header, before mutating anything —
the raise-time state is exactly the state the first call produced, so
every heavy style's cache is left as the first call materialized it. -/
theorem build_styles_second_call_raises (normF : NK → Int → Int)
    (f g : Nat) (st st' : SState)
    (h : buildStyles normF f st = some (.ok st')) :
    buildStyles normF g st' = some (.error (pendingNoneMsg, st')) := by
  rcases hp : st.styles_pending with _ | names
  · simp [buildStyles, hp] at h
  · rcases hb : buildList normF f names st with _ | e
    · simp [buildStyles, hp, hb] at h
    · rcases e with e | st1
      · simp [buildStyles, hp, hb] at h
      · simp only [buildStyles, hp, hb, Option.some.injEq, Except.ok.injEq] at h
        subst h
        rfl

/-- Witness for `build_styles_second_call_raises` at a concrete registry. -/
theorem build_styles_second_call_raises_witness :
    buildStyles normId 1 { style_map := [], styles_built := true, styles_pending := none } =
      some (.error (pendingNoneMsg,
        { style_map := [], styles_built := true, styles_pending := none })) :=
  build_styles_second_call_raises normId 1 1
    { style_map := [], styles_built := false, styles_pending := some [] }
    { style_map := [], styles_built := true, styles_pending := none } rfl

/-- C5, counterexample: `create` on a name that is already registered
raises nothing and silently replaces the existing style — afterwards the
map holds a fresh style with an empty properties list where the old style
(with its recorded batch) used to be. -/
theorem c5_create_duplicate_cex :
    ((okState (create normId 5 c5St "a" (some "default"))).bind
      (fun st => (alGet "a" st.style_map).map (fun s => s.properties))) = some [] ∧
    (alGet "a" c5St.style_map).map (fun s => s.properties) = some [[("xpos", 5)]] := by
  decide

/-- C5, amended: before the global build, `create(name, parent)` performs
no duplicate-name check: it unconditionally stores a fresh heavy style
(empty properties, no cache) under `name` — replacing any style already
registered there — and appends the name to the pending list. -/
theorem create_overwrites_silently (normF : NK → Int → Int) (fuel : Nat)
    (st : SState) (name : String) (par : Option String)
    (h : st.styles_built = false) :
    create normF fuel st name par =
      some (.ok { st with style_map := alSet st.style_map name (freshHeavy name par),
                          styles_pending := st.styles_pending.map (fun l => l ++ [name]) }) := by
  simp [create, h]

/-- Witness for `create_overwrites_silently` on the duplicate registry. -/
theorem create_overwrites_silently_witness :
    create normId 5 c5St "a" (some "default") =
      some (.ok { c5St with
        style_map := alSet c5St.style_map "a" (freshHeavy "a" (some "default")),
        styles_pending := c5St.styles_pending.map (fun l => l ++ ["a"]) }) :=
  create_overwrites_silently normId 5 c5St "a" (some "default") rfl

/-- C8: with `config.developer` off, `__delitem__` still mutates the
store — it has no `check` call, so `del db["a"]` succeeds, removes the
item and sets the dirty flag; and `update` sets the dirty flag before
its `check` runs, so even its `RuntimeError` leaves the state touched.
Both contradict the claim (and the source's own error message) that a
JSONDB can only be modified when `config.developer` is true. -/
theorem jsondb_delete_without_developer :
    delitem c8Env c8Db "a" =
      .ok ((), { data := [(some "data", [])], dflt := [],
                 dirty := true, hasKeyFn := false }) ∧
    dbUpdate c8Env c8Db [("b", .atom (.jnum 2))] =
      .error (devErrMsg, { c8Db with dirty := true }) := by
  decide

/-- C2: whenever the registry holds at least one heavy style, `rebuild()`
raises `AttributeError` (`Style` declares `__slots__`, so the loop body
`i.__dict__["cache"] = { }` fails on its first iteration); because of the
`global style_pending` typo the global pending list is also never updated.
Only the `styles_built = False` assignment has happened by raise time, so
no cache is cleared or rebuilt. -/
theorem rebuild_raises_on_heavy (normF : NK → Int → Int) (fuel : Nat) (st : SState)
    (h : st.style_map.any (fun e => e.2.heavy) = true) :
    rebuild normF fuel st =
      some (.error (attrDictMsg, { st with styles_built := false })) := by
  rcases hf : st.style_map.filter (fun e => e.2.heavy) with _ | ⟨a, l⟩
  · rw [List.any_eq_true] at h
    obtain ⟨x, hx, hh⟩ := h
    have hmem : x ∈ st.style_map.filter (fun e => e.2.heavy) :=
      List.mem_filter.mpr ⟨hx, hh⟩
    rw [hf] at hmem
    exact absurd hmem (List.not_mem_nil x)
  · simp [rebuild, hf]

/-- Witness for `rebuild_raises_on_heavy` on a one-heavy-style registry. -/
theorem rebuild_raises_on_heavy_witness :
    rebuild normId 1 c4St =
      some (.error (attrDictMsg, { c4St with styles_built := false })) :=
  rebuild_raises_on_heavy normId 1 c4St (by decide)

/-- The parent walk never leaves the light cycle `b → c → b`, whatever
the fuel: the source `while` loop has no visited set and neither style is
heavy, so no break condition can ever fire. -/
theorem walk_cyc (f : Nat) :
    ∀ acc, walkParents cycState.style_map f cycB acc = none ∧
           walkParents cycState.style_map f cycC acc = none := by
  induction f with
  | zero => exact fun acc => ⟨rfl, rfl⟩
  | succ f ih => exact fun acc => ⟨(ih (cycB :: acc)).2, (ih (cycC :: acc)).1⟩

/-- C1: `build_style` does not detect parent-chain cycles.  On a heavy
style whose (light) ancestors form a cycle, the parent walk runs forever:
for every fuel budget the embedded walk reports fuel exhaustion, so the
source loop never terminates and no error is ever raised. -/
theorem build_style_cycle_diverges (normF : NK → Int → Int) (fuel : Nat) :
    buildStyleN normF fuel cycState "a" = none := by
  match fuel with
  | 0 => rfl
  | 1 => rfl
  | (f + 2) =>
    have h0 : alGet "a" cycState.style_map = some cycA := rfl
    have h1 : walkParents cycState.style_map (f + 1) cycA [] = none :=
      (walk_cyc f [cycA]).1
    have h2 : cycA.heavy = true := rfl
    simp [buildStyleN, buildStyleV, h0, h1, h2]

/-- C7, counterexample: the alias table is only expanded for the four
state prefixes plus the bare prefix, so for a role-qualified prefix the
claimed equivalence fails — assigning `selected_hover_xalign` raises
"unknown property" while `selected_hover_xpos` / `selected_hover_xanchor`
are perfectly assignable. -/
theorem xalign_selected_pfx_cex :
    alGet "selected_hover_xalign" expansions = none ∧
    (alGet "selected_hover_xpos" expansions).isSome = true ∧
    (alGet "selected_hover_xanchor" expansions).isSome = true ∧
    expandProperties normId [("selected_hover_xalign", 5)] =
      .error "Style property selected_hover_xalign is unknown." := by
  decide

/-- C7, amended: for every prefix for which the alias is registered — the
four state prefixes and the bare prefix — assigning `xalign = v` is
exactly equivalent, for every starting cache and every affected slot, to
assigning `xpos = v` and `xanchor = v` in the same batch: the expansion
of the alias is literally the concatenation of the two target expansions,
so the sorted writes and hence the resulting caches coincide. -/
theorem xalign_equiv_xpos_xanchor (normF : NK → Int → Int) (v : Int)
    (c : List (Option Int)) (p : String) (hp : p ∈ pfxList ++ [""]) :
    applyBatch normF c [(p ++ "xalign", v)] =
      applyBatch normF c [(p ++ "xpos", v), (p ++ "xanchor", v)] := by
  fin_cases hp <;> rfl

/-- Witness for `xalign_equiv_xpos_xanchor` at the `hover_` prefix. -/
theorem xalign_equiv_xpos_xanchor_witness :
    (("hover_" : String) ∈ pfxList ++ [""]) ∧
    applyBatch normId (List.replicate property_numbers none) [("hover_" ++ "xalign", 7)] =
      applyBatch normId (List.replicate property_numbers none)
        [("hover_" ++ "xpos", 7), ("hover_" ++ "xanchor", 7)] :=
  ⟨by decide,
   xalign_equiv_xpos_xanchor normId 7 (List.replicate property_numbers none) "hover_"
     (by decide)⟩

/-- C9: for every registered property, an assignment through the
role-less `hover_` prefix fans out to both roles: its expansion writes
the `selected_hover_` (offset 0), `selected_activate_` (offset 192),
`hover_` (offset 256) and `activate_` (offset 448) slots of the property,
all at the `hover_` priority 2 — because `register_prefix` expands a
prefix that names no role over every configured role, and `hover_` is
registered with `addprefixes=['activate_']`. -/
theorem hover_fans_out_both_roles :
    ∀ x ∈ property_number,
      alGet ("hover_" ++ x.1) expansions =
        some [(2, x.2, nkOf x.1), (2, x.2 + 192, nkOf x.1),
              (2, x.2 + 256, nkOf x.1), (2, x.2 + 448, nkOf x.1)] := by
  decide

/-- Witness for `hover_fans_out_both_roles` at `xpos` (index 57). -/
theorem hover_fans_out_both_roles_witness :
    (("xpos", 57) ∈ property_number) ∧
    alGet ("hover_" ++ "xpos") expansions =
      some [(2, 57, nkOf "xpos"), (2, 249, nkOf "xpos"),
            (2, 313, nkOf "xpos"), (2, 505, nkOf "xpos")] :=
  ⟨by decide, hover_fans_out_both_roles ("xpos", 57) (by decide)⟩

/-- C10: every read operation of `JSONDB` — item access, `len`,
iteration, containment and `get` — mutates the store when the current
key holds no entry yet: each goes through `get_dict`, which inserts a
copy of the default dictionary under the current key into the in-memory
data before returning. -/
theorem jsondb_reads_insert_default (env : Env) (db : DB) (key k2 : String)
    (dv : JVal)
    (hk : currentKey env db = some key)
    (hab : RenpyStyle.alGet (some key) db.data = none) :
    jState (getitem env db k2) = { db with data := db.data ++ [(some key, db.dflt)] } ∧
    jState (dbLen env db) = { db with data := db.data ++ [(some key, db.dflt)] } ∧
    jState (dbKeys env db) = { db with data := db.data ++ [(some key, db.dflt)] } ∧
    jState (dbContains env db k2) = { db with data := db.data ++ [(some key, db.dflt)] } ∧
    jState (dbGet env db k2 dv) = { db with data := db.data ++ [(some key, db.dflt)] } := by
  have hgd : get_dict env db =
      .ok (db.dflt, { db with data := db.data ++ [(some key, db.dflt)] }) := by
    simp [get_dict, hk, hab]
  refine ⟨?_, ?_, ?_, ?_, ?_⟩
  · rcases h2 : RenpyStyle.alGet k2 db.dflt with _ | v <;>
      simp [getitem, hgd, h2, jState]
  · simp [dbLen, hgd, jState]
  · simp [dbKeys, hgd, jState]
  · simp [dbContains, hgd, jState]
  · simp [dbGet, hgd, jState]

/-- Witness for `jsondb_reads_insert_default` on a fresh keyed store. -/
theorem jsondb_reads_insert_default_witness :
    currentKey c10Env c10Db = some "k" ∧
    RenpyStyle.alGet (some "k") c10Db.data = none ∧
    (jState (getitem c10Env c10Db "enabled") =
        { c10Db with data := c10Db.data ++ [(some "k", c10Db.dflt)] } ∧
     jState (dbLen c10Env c10Db) =
        { c10Db with data := c10Db.data ++ [(some "k", c10Db.dflt)] } ∧
     jState (dbKeys c10Env c10Db) =
        { c10Db with data := c10Db.data ++ [(some "k", c10Db.dflt)] } ∧
     jState (dbContains c10Env c10Db "enabled") =
        { c10Db with data := c10Db.data ++ [(some "k", c10Db.dflt)] } ∧
     jState (dbGet c10Env c10Db "enabled" (.atom .jnull)) =
        { c10Db with data := c10Db.data ++ [(some "k", c10Db.dflt)] }) :=
  ⟨by decide, by decide,
   jsondb_reads_insert_default c10Env c10Db "k" "enabled" (.atom .jnull)
     (by decide) (by decide)⟩

/-- Lookup after a Python-style dictionary assignment. -/
theorem alGet_alSet {α : Type} (m : List (String × α)) (k k2 : String) (v : α) :
    alGet k2 (alSet m k v) = if k = k2 then some v else alGet k2 m := by
  induction m with
  | nil => by_cases h : k = k2 <;> simp [alSet, alGet, h]
  | cons e t ih =>
    obtain ⟨a, b⟩ := e
    by_cases ha : a = k
    · subst ha
      by_cases h2 : a = k2 <;> simp [alSet, alGet, h2]
    · by_cases h2 : a = k2
      · subst h2
        have hkk : k ≠ a := fun hh => ha hh.symm
        simp [alSet, alGet, ha, hkk]
      · simp [alSet, alGet, ha, h2, ih]

/-- Assigning to a key that is already bound does not change the key
list. -/
theorem alKeys_alSet {α : Type} (m : List (String × α)) (k : String) (v : α)
    (h : (alGet k m).isSome) : alKeys (alSet m k v) = alKeys m := by
  induction m with
  | nil => simp [alGet] at h
  | cons e t ih =>
    obtain ⟨a, b⟩ := e
    by_cases ha : a = k
    · simp [alSet, ha, alKeys]
    · have h2 : (alGet k t).isSome := by simpa [alGet, ha] using h
      simpa [alSet, ha, alKeys] using ih h2

/-- The key list of a cons cell. -/
theorem alKeys_cons {κ α : Type} (e : κ × α) (t : List (κ × α)) :
    alKeys (e :: t) = e.1 :: alKeys t := rfl

/-- A key outside the key list has no binding. -/
theorem alGet_none_of_not_mem {α : Type} (m : List (String × α)) (k : String)
    (h : k ∉ alKeys m) : alGet k m = none := by
  induction m with
  | nil => rfl
  | cons e t ih =>
    obtain ⟨a, b⟩ := e
    rw [alKeys_cons] at h
    simp only [List.mem_cons, not_or] at h
    have hak : a ≠ k := fun hh => h.1 hh.symm
    simp [alGet, hak, ih h.2]

/-- Unfolding equation for `overlayProps` on a cons cell. -/
theorem overlay_cons (e : String × Style) (t : List (String × Style))
    (o : List (String × List (List (String × Int)))) :
    overlayProps (e :: t) o =
      (match alGet e.1 o with
       | some v => (e.1, { e.2 with properties := v })
       | none => e) :: overlayProps t o := rfl

/-- An empty snapshot overlays nothing. -/
theorem overlay_nil (m : List (String × Style)) : overlayProps m [] = m := by
  induction m with
  | nil => rfl
  | cons e t ih =>
    rw [overlay_cons, ih]
    exact rfl

/-- A snapshot entry whose key occurs nowhere in the map overlays
nothing. -/
theorem overlay_skip (m : List (String × Style)) (k : String)
    (v : List (List (String × Int))) (rest : List (String × List (List (String × Int))))
    (h : k ∉ alKeys m) :
    overlayProps m ((k, v) :: rest) = overlayProps m rest := by
  induction m with
  | nil => rfl
  | cons e t ih =>
    obtain ⟨a, b⟩ := e
    rw [alKeys_cons] at h
    simp only [List.mem_cons, not_or] at h
    have hka : k ≠ a := h.1
    rw [overlay_cons, overlay_cons, ih h.2]
    have hget : alGet a ((k, v) :: rest) = alGet a rest := by
      simp [alGet, fun hh : k = a => hka hh]
    rw [hget]

/-- Replacing the properties of the style bound to `k` and overlaying the
rest of a snapshot equals overlaying the whole snapshot at once. -/
theorem overlay_alSet (m : List (String × Style)) (k : String) (s : Style)
    (v : List (List (String × Int))) (rest : List (String × List (List (String × Int))))
    (hs : alGet k m = some s) (hr : k ∉ alKeys rest) (hn : (alKeys m).Nodup) :
    overlayProps (alSet m k { s with properties := v }) rest =
      overlayProps m ((k, v) :: rest) := by
  induction m with
  | nil => simp [alGet] at hs
  | cons e t ih =>
    obtain ⟨a, b⟩ := e
    rw [alKeys_cons] at hn
    have hn2 := List.nodup_cons.mp hn
    by_cases ha : a = k
    · subst ha
      have hbs : b = s := by simpa [alGet] using hs
      subst hbs
      have hra : alGet a rest = none := alGet_none_of_not_mem _ _ hr
      rw [show alSet ((a, b) :: t) a { b with properties := v } =
            (a, { b with properties := v }) :: t from by simp [alSet]]
      rw [overlay_cons, overlay_cons, overlay_skip t a v rest hn2.1]
      have hget : alGet a ((a, v) :: rest) = some v := by simp [alGet]
      rw [hra, hget]
    · have hs2 : alGet k t = some s := by simpa [alGet, ha] using hs
      have hka : k ≠ a := fun hh => ha hh.symm
      rw [show alSet ((a, b) :: t) k { s with properties := v } =
            (a, b) :: alSet t k { s with properties := v } from by simp [alSet, ha]]
      rw [overlay_cons, overlay_cons, ih hs2 hn2.2]
      have hget : alGet a ((k, v) :: rest) = alGet a rest := by
        simp [alGet, fun hh : k = a => hka hh]
      rw [hget]

/-- Specification of the `restore` loop: with distinct snapshot keys that
are all registered, the loop succeeds and produces exactly the
properties-overlaid map, appending the snapshot keys to the pending
list, leaving everything else (in particular every cache) unchanged. -/
theorem restoreLoop_spec (o : List (String × List (List (String × Int)))) :
    ∀ st : SState, (alKeys o).Nodup →
    (∀ k ∈ alKeys o, (alGet k st.style_map).isSome) →
    (alKeys st.style_map).Nodup →
    restoreLoop o st =
      .ok { style_map := overlayProps st.style_map o,
            styles_built := st.styles_built,
            styles_pending := st.styles_pending.map (fun l => l ++ alKeys o) } := by
  induction o with
  | nil =>
    intro st _ _ _
    obtain ⟨m, bb, p⟩ := st
    rw [restoreLoop, overlay_nil]
    cases p <;> simp [alKeys]
  | cons e rest ih =>
    obtain ⟨k, v⟩ := e
    intro st hnod hsome hmnod
    rw [alKeys_cons] at hnod
    have hnod2 := List.nodup_cons.mp hnod
    obtain ⟨s, hs⟩ := Option.isSome_iff_exists.mp
      (hsome k (by rw [alKeys_cons]; exact List.mem_cons_self _ _))
    simp only [restoreLoop, hs]
    rw [ih { st with
              style_map := alSet st.style_map k { s with properties := v },
              styles_pending := st.styles_pending.map (fun l => l ++ [k]) }
          hnod2.2
          (by
            intro k2 hk2
            show (alGet k2 (alSet st.style_map k _)).isSome
            rw [alGet_alSet]
            by_cases hkk : k = k2
            · simp [hkk]
            · simp only [if_neg hkk]
              exact hsome k2 (by rw [alKeys_cons]; exact List.mem_cons_of_mem _ hk2))
          (by
            show (alKeys (alSet st.style_map k _)).Nodup
            rw [alKeys_alSet _ _ _ (by simp [hs])]
            exact hmnod)]
    have hov := overlay_alSet st.style_map k s v rest hs hnod2.1 hmnod
    cases hp : st.styles_pending <;> simp [hov, hp, alKeys_cons]

/-- C3, amended: `restore(o)` replaces the raw properties of each named style
list with the snapshot copy, marks exactly the snapshot styles
pending (and clears `styles_built`), and leaves styles outside the
snapshot — and every style cache — untouched.  It does not re-run the
build: the produced state is only marked pending, and caches reflect the
restored properties only after the next `build_styles()` call. -/
theorem restore_marks_pending_defers_build (st : SState)
    (o : List (String × List (List (String × Int))))
    (h1 : (alKeys o).Nodup)
    (h2 : ∀ k ∈ alKeys o, (alGet k st.style_map).isSome)
    (h3 : (alKeys st.style_map).Nodup) :
    restore st o =
      .ok { style_map := overlayProps st.style_map o,
            styles_built := false,
            styles_pending := some (alKeys o) } := by
  have h := restoreLoop_spec o
    { st with styles_pending := some [], styles_built := false } h1 h2 h3
  rw [restore]
  exact h

/-- Witness for `restore_marks_pending_defers_build` on a one-style
registry and a one-entry snapshot. -/
theorem restore_marks_pending_defers_build_witness :
    restore c3St0 [("a", [[("xpos", 9)]])] =
      .ok { style_map := overlayProps c3St0.style_map [("a", [[("xpos", 9)]])],
            styles_built := false,
            styles_pending := some (alKeys [("a", [[("xpos", 9)]])]) } :=
  restore_marks_pending_defers_build c3St0 [("a", [[("xpos", 9)]])]
    (by decide) (by decide) (by decide)

/-- C3, counterexample: build `a` with `xpos = 5`, snapshot it, mutate
`xpos` to 7 (rebuilding), then `restore` the snapshot.  When `restore`
returns, `a`'s cache still holds 7 — not the restored value 5 that the
claimed immediate re-build would produce; only a subsequent
`build_styles()` call makes the cache reflect the restored properties. -/
theorem restore_stale_cache_cex :
    c3Restored.map (fun st => readSlot st "a" insensOffset 57) =
      some (some (some 7)) ∧
    (c3Restored.bind (fun st => okState (buildStyles normId 10 st))).map
      (fun st => readSlot st "a" insensOffset 57) = some (some (some 5)) := by
  decide
